import Mathlib

/-!
Shallow embedding of the GC9A01 display driver (src/GC9A01.py).

Pure helper functions of the driver are translated into Lean functions.
Stateful methods of the `GC9A01` class are translated as explicit state
passing: the software framebuffer is a function from pixel coordinates to
an RGB888 triple, and every hardware interaction is recorded in a trace of
bus events (command bytes and data-byte payloads written over SPI).
Machine integers are modelled with Nat/Int; Python integer arithmetic is
unbounded, so no wrap-around is needed.
-/

namespace GC9A01

/-! ## Command constants (source lines 37-44) -/

def CMD_CASET : Nat := 0x2A
def CMD_RASET : Nat := 0x2B
def CMD_RAMWR : Nat := 0x2C
def CMD_DISPON : Nat := 0x29
def CMD_DISPOFF : Nat := 0x28
def SPI_CHUNK_SIZE_BYTES : Nat := 4096

/-! ## ColorConverter (source lines 66-74) -/

/-- `_rgb565_to_rgb888_tuple` (source lines 66-69): extract the 5/6/5-bit
channels and upscale each to 8 bits by rounding. -/
def rgb565_to_rgb888_tuple (c : Nat) : Nat × Nat × Nat :=
  let r8 := (c &&& 0xF800) >>> 11
  let g8 := (c &&& 0x07E0) >>> 5
  let b8 := c &&& 0x001F
  ((r8 * 255 + 15) / 31, (g8 * 255 + 31) / 63, (b8 * 255 + 15) / 31)

/-- `_rgb888_tuple_to_rgb565_int` (source lines 71-74), non-`None` case:
mask/shift truncation. -/
def rgb888_tuple_to_rgb565_int : Nat × Nat × Nat → Nat
  | (r, g, b) => ((r &&& 0xF8) <<< 8) ||| ((g &&& 0xFC) <<< 3) ||| (b >>> 3)

/-! ## Bus trace model

`spi.write` calls are recorded as events.  A `cmd` event is the one-byte
write performed with the DC line low; a `data` event is a write performed
with the DC line high. -/

inductive BusEvent
  | cmd (c : Nat)
  | data (bs : List Nat)
deriving DecidableEq, Repr

/-- The chunking loop of `_write_data` (source lines 113-115),
`for i in range(0, len(data), SPI_CHUNK_SIZE_BYTES): spi.write(data[i:i+SPI_CHUNK_SIZE_BYTES])`,
written with a fuel argument so that the recursion is structural; each
iteration consumes at least one byte, so any fuel of at least the buffer
length gives the loop's behavior. -/
def chunkBytesF : Nat → List Nat → List (List Nat)
  | _, [] => []
  | 0, _ :: _ => []
  | fuel + 1, b :: bs =>
    (b :: bs).take SPI_CHUNK_SIZE_BYTES
      :: chunkBytesF fuel ((b :: bs).drop SPI_CHUNK_SIZE_BYTES)

/-- The chunks written by `_write_data` for a given buffer. -/
def chunkBytes (data : List Nat) : List (List Nat) :=
  chunkBytesF data.length data

/-- `_write_data` (source lines 111-118) for a bytes/bytearray payload:
each chunk becomes one SPI write with DC high. -/
def write_data (data : List Nat) : List BusEvent :=
  (chunkBytes data).map .data

/-- `_write_cmd_bytes_data` (source lines 102-105) with a payload. -/
def write_cmd_bytes_data (c : Nat) (bs : List Nat) : List BusEvent :=
  [.cmd c, .data bs]

/-- `_write_cmd_no_args` (source lines 106-107). -/
def write_cmd_no_args (c : Nat) : List BusEvent :=
  [.cmd c]

/-! ## PanelController addressing (source lines 168-177) -/

/-- The 16-bit big-endian byte pair used for window coordinates
(source lines 173-174): `[(v>>8)&0xFF, v&0xFF]`. -/
def benc16 (v : Nat) : List Nat := [(v >>> 8) &&& 0xFF, v &&& 0xFF]

/-- Clamping of one window coordinate into [0, limit-1]
(source lines 169-170): `max(0, min(int(v), limit - 1))`. -/
def clampCoord (limit : Nat) (v : Int) : Nat :=
  (max 0 (min v ((limit : Int) - 1))).toNat

/-- `set_window` (source lines 168-174): clamp both corners per axis, swap an
inverted pair, emit CASET and RASET with big-endian 16-bit start and end. -/
def set_window (W H : Nat) (x_start y_start x_end y_end : Int) : List BusEvent :=
  let xs := clampCoord W x_start
  let ys := clampCoord H y_start
  let xe := clampCoord W x_end
  let ye := clampCoord H y_end
  let xs2 := if xs > xe then xe else xs
  let xe2 := if xs > xe then xs else xe
  let ys2 := if ys > ye then ye else ys
  let ye2 := if ys > ye then ys else ye
  write_cmd_bytes_data CMD_CASET (benc16 xs2 ++ benc16 xe2)
    ++ write_cmd_bytes_data CMD_RASET (benc16 ys2 ++ benc16 ye2)

/-- `write_ram_prepare` (source lines 176-177). -/
def write_ram_prepare : List BusEvent := write_cmd_no_args CMD_RAMWR

/-! ## Framebuffer model -/

/-- A 24-bit RGB888 pixel. -/
abbrev Rgb := Nat × Nat × Nat

/-- The software framebuffer `self.framebuffer`: the pixel at column `x`,
row `y` is `fb x y`; only coordinates inside the panel are meaningful. -/
abbrev Fb := Nat → Nat → Rgb

/-- `_pil_image_to_rgb565_bytearray` (source lines 76-96) on an RGB image of
size `w` by `h`: the row-major list of big-endian RGB565 byte pairs
(`buffer[idx] = (c>>8)&0xFF; buffer[idx+1] = c&0xFF`). -/
def pil_image_to_rgb565_bytearray (w h : Nat) (img : Nat → Nat → Rgb) : List Nat :=
  (List.range h).flatMap fun y =>
    (List.range w).flatMap fun x =>
      benc16 (rgb888_tuple_to_rgb565_int (img x y))

/-- `draw_image_rgb565` (source lines 242-267): the low-level blit of a raw
RGB565 byte buffer.  It clips the placement to the panel, programs the
addressing window, and streams the (sub-row extracted, if clipped) bytes.
The framebuffer is threaded through unchanged, exactly as in the source,
whose body never mentions `self.framebuffer`. -/
def draw_image_rgb565 (W H : Nat) (x y : Int) (w h : Nat) (buf : List Nat)
    (fb : Fb) : Fb × List BusEvent :=
  if (W : Int) ≤ x ∨ (H : Int) ≤ y ∨ x + w ≤ 0 ∨ y + h ≤ 0 then (fb, [])
  else
    let srcX : Nat := if x < 0 then (-x).toNat else 0
    let srcY : Nat := if y < 0 then (-y).toNat else 0
    let drawX : Nat := x.toNat
    let drawY : Nat := y.toNat
    let blitW : Int := min ((w : Int) - srcX) ((W : Int) - drawX)
    let blitH : Int := min ((h : Int) - srcY) ((H : Int) - drawY)
    if blitW ≤ 0 ∨ blitH ≤ 0 then (fb, [])
    else
      let bw := blitW.toNat
      let bh := blitH.toNat
      let payload : List Nat :=
        if bw ≠ w ∨ bh ≠ h ∨ 0 < srcX ∨ 0 < srcY then
          (List.range bh).flatMap fun r =>
            (buf.drop (((srcY + r) * w + srcX) * 2)).take (bw * 2)
        else buf
      (fb, set_window W H drawX drawY ((drawX : Int) + bw - 1) ((drawY : Int) + bh - 1)
        ++ write_ram_prepare ++ write_data payload)

/-- The x-origin clamp of `_update_framebuffer_region` (source line 183):
`x = max(0, min(x, self.width - 1))`. -/
def clampX (W : Nat) (x : Int) : Int := max 0 (min x ((W : Int) - 1))

/-- The width clamp of `_update_framebuffer_region` (source line 185):
`width = max(0, min(width, self.width - x))` with `x` already clamped. -/
def clampW (W : Nat) (x w : Int) : Int := max 0 (min w ((W : Int) - clampX W x))

/-- `_update_framebuffer_region` (source lines 179-194): clamp the region
into panel bounds, no-op on a degenerate region, otherwise crop the
framebuffer, convert it to RGB565 bytes and push it with
`draw_image_rgb565`. -/
def update_framebuffer_region (W H : Nat) (fb : Fb) (x y w h : Int) :
    Fb × List BusEvent :=
  let x2 := clampX W x
  let y2 := clampX H y
  let w2 := clampW W x w
  let h2 := clampW H y h
  if w2 = 0 ∨ h2 = 0 then (fb, [])
  else
    draw_image_rgb565 W H x2 y2 w2.toNat h2.toNat
      (pil_image_to_rgb565_bytearray w2.toNat h2.toNat
        (fun i j => fb (x2.toNat + i) (y2.toNat + j))) fb

/-! ## CompositingEngine (source lines 207-240) -/

/-- An RGBA pixel of the source image passed to
`draw_image_rgba_composited`. -/
structure Rgba where
  r : Nat
  g : Nat
  b : Nat
  a : Nat
deriving DecidableEq, Repr

/-- SHIFTFORDIV255 of the image library the driver delegates to for
compositing: the approximate division by 255, `((x >> 8) + x) >> 8`. -/
def shiftForDiv255 (x : Nat) : Nat := (x / 256 + x) / 256

/-- One channel of `Image.alpha_composite`.  Modelled from the image library
(Pillow AlphaComposite.c) the driver delegates to at source line 236,
specialized to a fully opaque destination, which is how
`draw_image_rgba_composited` always calls it (the background region is
`convert("RGBA")`-ed, so its alpha is 255): with PRECISION_BITS = 7 the
coefficients are `coef1 = a*255*255*128/(255*255) = a*128` and
`coef2 = 255*128 - coef1 = (255-a)*128`, and the output channel is
`SHIFTFORDIV255(s*coef1 + d*coef2 + (0x80 << 7)) >> 7`. -/
def alpha_composite_channel (s d a : Nat) : Nat :=
  shiftForDiv255 (s * (a * 128) + d * ((255 - a) * 128) + 16384) / 128

/-- Source-over compositing of one RGBA source pixel onto one opaque RGB
destination pixel (`Image.alpha_composite` followed by `convert("RGB")`,
source lines 236-237). -/
def composite_pixel (dst : Rgb) (src : Rgba) : Rgb :=
  (alpha_composite_channel src.r dst.1 src.a,
   alpha_composite_channel src.g dst.2.1 src.a,
   alpha_composite_channel src.b dst.2.2 src.a)

/-- The clipping computation of `draw_image_rgba_composited`
(source lines 225-229): on-screen top-left corner, and blit width/height,
as `(drawX, drawY, blitW, blitH)`. -/
def composite_clip (W H : Nat) (x y : Int) (imgW imgH : Nat) :
    Int × Int × Int × Int :=
  let drawX := max 0 x
  let drawY := max 0 y
  let srcX0 : Int := if 0 ≤ x then 0 else -x
  let srcY0 : Int := if 0 ≤ y then 0 else -y
  (drawX, drawY, min ((imgW : Int) - srcX0) ((W : Int) - drawX),
    min ((imgH : Int) - srcY0) ((H : Int) - drawY))

/-- `draw_image_rgba_composited` (source lines 207-240), PIL available:
crop the source and the framebuffer region symmetrically, alpha-composite,
paste the opaque result back, then dirty-sync the blended region.  The
crop/composite/paste of source lines 232-239 is expressed pointwise: a
pixel inside the blit rectangle becomes the composite of the old
framebuffer pixel with the corresponding source pixel, every other pixel
is untouched. -/
def draw_image_rgba_composited (W H : Nat) (x y : Int) (imgW imgH : Nat)
    (img : Nat → Nat → Rgba) (fb : Fb) : Fb × List BusEvent :=
  let c := composite_clip W H x y imgW imgH
  let drawX := c.1
  let drawY := c.2.1
  let blitW := c.2.2.1
  let blitH := c.2.2.2
  let srcX0 : Int := if 0 ≤ x then 0 else -x
  let srcY0 : Int := if 0 ≤ y then 0 else -y
  if blitW ≤ 0 ∨ blitH ≤ 0 then (fb, [])
  else
    let fb2 : Fb := fun i j =>
      if drawX ≤ (i : Int) ∧ (i : Int) < drawX + blitW
          ∧ drawY ≤ (j : Int) ∧ (j : Int) < drawY + blitH then
        composite_pixel (fb i j)
          (img ((i : Int) - drawX + srcX0).toNat ((j : Int) - drawY + srcY0).toNat)
      else fb i j
    (fb2, (update_framebuffer_region W H fb2 drawX drawY blitW blitH).2)

/-! ## ShapeRasterizer (source lines 270-331) -/

/-- `pixel` (source lines 270-276): bounds-check, draw a single point on the
framebuffer, sync the 1-by-1 region. -/
def pixel (W H : Nat) (fb : Fb) (x y : Int) (c : Nat) : Fb × List BusEvent :=
  if 0 ≤ x ∧ x < (W : Int) ∧ 0 ≤ y ∧ y < (H : Int) then
    let rgb := rgb565_to_rgb888_tuple c
    let fb2 : Fb := fun i j => if (i : Int) = x ∧ (j : Int) = y then rgb else fb i j
    (fb2, (update_framebuffer_region W H fb2 x y 1 1).2)
  else (fb, [])

/-- Modelled from the image library: `ImageDraw.rectangle` with the
inclusive box corners `(x0,y0)-(x1,y1)` (the driver always passes
`x0 <= x1`, `y0 <= y1`), drawing the outline band of the given width inward
from the border when an outline color is given, the fill inside, and
silently discarding pixels outside the image. -/
def fb_draw_rectangle (W H : Nat) (fb : Fb) (x0 y0 x1 y1 : Int)
    (fill outline : Option Rgb) (ow : Nat) : Fb :=
  fun i j =>
    if i < W ∧ j < H ∧ x0 ≤ (i : Int) ∧ (i : Int) ≤ x1
        ∧ y0 ≤ (j : Int) ∧ (j : Int) ≤ y1 then
      match outline with
      | some o =>
        if 0 < ow ∧ ((i : Int) < x0 + ow ∨ x1 - ow < (i : Int)
            ∨ (j : Int) < y0 + ow ∨ y1 - ow < (j : Int)) then o
        else
          match fill with
          | some f => f
          | none => fb i j
      | none =>
        match fill with
        | some f => f
        | none => fb i j
    else fb i j

/-- `rectangle` (source lines 291-305): no-op on non-positive extent,
otherwise draw on the framebuffer and sync the box padded by
`outline_width // 2 + 1` when an outline is drawn. -/
def rectangle (W H : Nat) (fb : Fb) (x y w h : Int)
    (outline fill : Option Nat) (ow : Nat) : Fb × List BusEvent :=
  if w ≤ 0 ∨ h ≤ 0 then (fb, [])
  else
    let fillRgb := fill.map rgb565_to_rgb888_tuple
    let outlineRgb := outline.map rgb565_to_rgb888_tuple
    let useOw : Nat := if outlineRgb.isSome ∧ 0 < ow then ow else 0
    let fb2 := fb_draw_rectangle W H fb x y (x + w - 1) (y + h - 1)
      fillRgb outlineRgb useOw
    let pad : Int := if outlineRgb.isSome ∧ 0 < ow then (ow : Int) / 2 + 1 else 0
    (fb2, (update_framebuffer_region W H fb2 (x - pad) (y - pad)
      (w + 2 * pad) (h + 2 * pad)).2)

/-- Membership of a pixel in the mathematical ellipse inscribed in the
inclusive box `(x0,y0)-(x1,y1)`. -/
def in_ellipse (x0 y0 x1 y1 i j : Int) : Prop :=
  (2 * i - (x0 + x1)) ^ 2 * (y1 - y0 + 1) ^ 2
      + (2 * j - (y0 + y1)) ^ 2 * (x1 - x0 + 1) ^ 2
    ≤ (x1 - x0 + 1) ^ 2 * (y1 - y0 + 1) ^ 2

instance (x0 y0 x1 y1 i j : Int) : Decidable (in_ellipse x0 y0 x1 y1 i j) := by
  unfold in_ellipse; infer_instance

/-- Modelled from the image library: `ImageDraw.ellipse` on the inclusive
bounding box, as the mathematical filled/outlined ellipse (the outline band
is the ellipse minus the ellipse of the box shrunk by the outline width).
The claims below depend only on the `r < 0` and `r = 0` dispatch of
`circle`, not on this rasterization. -/
def fb_draw_ellipse (W H : Nat) (fb : Fb) (x0 y0 x1 y1 : Int)
    (fill outline : Option Rgb) (ow : Nat) : Fb :=
  fun i j =>
    if i < W ∧ j < H ∧ in_ellipse x0 y0 x1 y1 i j then
      match outline with
      | some o =>
        if 0 < ow ∧ ¬in_ellipse (x0 + ow) (y0 + ow) (x1 - ow) (y1 - ow) i j then o
        else
          match fill with
          | some f => f
          | none => fb i j
      | none =>
        match fill with
        | some f => f
        | none => fb i j
    else fb i j

/-- `circle` (source lines 316-331).  `r < 0` returns immediately; `r = 0`
delegates to `pixel` with the fill color preferred over the outline color
(source line 320); otherwise the ellipse of the square box around the
center is drawn and the padded box synced.  The `none` result is the
TypeError the source raises at line 320 when both colors are `None` (the
selected color reaches `_rgb565_to_rgb888_tuple(None)`, which computes
`None & 0xF800`). -/
def circle (W H : Nat) (fb : Fb) (xc yc r : Int)
    (outline fill : Option Nat) (ow : Nat) : Option (Fb × List BusEvent) :=
  if r < 0 then some (fb, [])
  else if r = 0 then
    match (if fill.isSome then fill else outline) with
    | some c => some (pixel W H fb xc yc c)
    | none => none
  else
    let fillRgb := fill.map rgb565_to_rgb888_tuple
    let outlineRgb := outline.map rgb565_to_rgb888_tuple
    let useOw : Nat := if outlineRgb.isSome ∧ 0 < ow then ow else 0
    let fb2 := fb_draw_ellipse W H fb (xc - r) (yc - r) (xc + r) (yc + r)
      fillRgb outlineRgb useOw
    let pad : Int := if outlineRgb.isSome ∧ 0 < ow then (ow : Int) / 2 + 1 else 1
    some (fb2, (update_framebuffer_region W H fb2 (xc - r - pad) (yc - r - pad)
      (2 * (r + pad)) (2 * (r + pad))).2)

/-! ## PanelController pin model (source lines 98-122, 159-166)

For the missing-collaborator policy the pin and SPI accesses are modelled
one level lower: each `pin.value(v)` or `spi.write(...)` either records a
pin event or raises (Python AttributeError on `None`), and each operation
returns `Except` accordingly. -/

inductive PinEvent
  | rstVal (v : Nat)
  | blVal (v : Nat)
  | csVal (v : Nat)
  | dcVal (v : Nat)
  | spiWrite (bs : List Nat)
  | warn (msg : String)
deriving DecidableEq, Repr

/-- Which collaborators were configured (non-None) at construction
(source lines 46-57): `manualCs` is `bool(cs_pin_obj)`. -/
structure Periph where
  dc : Bool
  rst : Bool
  bl : Bool
  cs : Bool
  spiBus : Bool
  manualCs : Bool
deriving DecidableEq, Repr

/-- `pin.value(v)` on a possibly missing pin: raises AttributeError when the
pin is `None`, as the unguarded `self.dc.value(...)` calls do. -/
def pin_value (present : Bool) (mk : Nat → PinEvent) (v : Nat) :
    Except String (List PinEvent) :=
  if present then .ok [mk v]
  else .error "AttributeError: NoneType object has no attribute value"

/-- `self.spi.write(bs)` on a possibly missing SPI bus. -/
def spi_write_hw (p : Periph) (bs : List Nat) : Except String (List PinEvent) :=
  if p.spiBus then .ok [.spiWrite bs]
  else .error "AttributeError: NoneType object has no attribute write"

/-- `_cs_low` (source lines 98-99): doubly guarded, never raises. -/
def cs_low_hw (p : Periph) : List PinEvent :=
  if p.manualCs && p.cs then [.csVal 0] else []

/-- `_cs_high` (source lines 100-101): doubly guarded, never raises. -/
def cs_high_hw (p : Periph) : List PinEvent :=
  if p.manualCs && p.cs then [.csVal 1] else []

/-- `_write_cmd_no_args` (source lines 106-107) at the pin level: the DC pin
and the SPI bus are dereferenced without a `None` guard. -/
def write_cmd_no_args_hw (p : Periph) (c : Nat) : Except String (List PinEvent) := do
  let e1 := cs_low_hw p
  let e2 ← pin_value p.dc .dcVal 0
  let e3 ← spi_write_hw p [c]
  pure (e1 ++ e2 ++ e3 ++ cs_high_hw p)

/-- `_write_cmd_bytes_data` (source lines 102-105) at the pin level. -/
def write_cmd_bytes_data_hw (p : Periph) (c : Nat) (bs : Option (List Nat)) :
    Except String (List PinEvent) := do
  let e1 := cs_low_hw p
  let e2 ← pin_value p.dc .dcVal 0
  let e3 ← spi_write_hw p [c]
  match bs with
  | none => pure (e1 ++ e2 ++ e3 ++ cs_high_hw p)
  | some payload => do
    let e4 ← pin_value p.dc .dcVal 1
    let e5 ← spi_write_hw p payload
    pure (e1 ++ e2 ++ e3 ++ e4 ++ e5 ++ cs_high_hw p)

/-- `reset` (source lines 120-122): the reset pin is checked first, so a
missing pin degrades to a logged warning and no pin activity. -/
def reset_hw (p : Periph) : List PinEvent :=
  if p.rst then [.rstVal 1, .rstVal 0, .rstVal 1]
  else [.warn "Reset pin not configured."]

/-- `display_on` (source lines 159-160). -/
def display_on_hw (p : Periph) : Except String (List PinEvent) :=
  write_cmd_no_args_hw p CMD_DISPON

/-- `display_off` (source lines 161-162). -/
def display_off_hw (p : Periph) : Except String (List PinEvent) :=
  write_cmd_no_args_hw p CMD_DISPOFF

/-- `backlight_on` (source lines 163-164): guarded. -/
def backlight_on_hw (p : Periph) : List PinEvent :=
  if p.bl then [.blVal 1] else []

/-- `backlight_off` (source lines 165-166): guarded. -/
def backlight_off_hw (p : Periph) : List PinEvent :=
  if p.bl then [.blVal 0] else []

/-- `set_window` (source lines 168-174) at the pin level: the two addressing
writes, sequenced through the possibly missing DC/SPI collaborators. -/
def set_window_hw (p : Periph) (W H : Nat) (x_start y_start x_end y_end : Int) :
    Except String (List PinEvent) := do
  let xs := clampCoord W x_start
  let ys := clampCoord H y_start
  let xe := clampCoord W x_end
  let ye := clampCoord H y_end
  let xs2 := if xs > xe then xe else xs
  let xe2 := if xs > xe then xs else xe
  let ys2 := if ys > ye then ye else ys
  let ye2 := if ys > ye then ys else ye
  let e1 ← write_cmd_bytes_data_hw p CMD_CASET (some (benc16 xs2 ++ benc16 xe2))
  let e2 ← write_cmd_bytes_data_hw p CMD_RASET (some (benc16 ys2 ++ benc16 ye2))
  pure (e1 ++ e2)

/-! ## Concrete fixtures used by witnesses -/

/-- An all-black framebuffer, as after power-on. -/
def fbZero : Fb := fun _ _ => (0, 0, 0)

/-- A framebuffer whose pixel value records its coordinates. -/
def fbCoords : Fb := fun i j => (i, j, 0)

/-- A constant RGBA test image. -/
def imgConst (p : Rgba) : Nat → Nat → Rgba := fun _ _ => p

/-! ## Basic lemmas -/

set_option maxRecDepth 4000 in
/-- The 5-bit rounding upscale keeps its top five bits equal to the input:
masking with 0xF8 is the input shifted up by three. -/
lemma up5_and (x : Nat) (hx : x < 32) : ((x * 255 + 15) / 31) &&& 0xF8 = x <<< 3 := by
  have h : ∀ y : Fin 32, (((y : Nat) * 255 + 15) / 31) &&& 0xF8 = (y : Nat) <<< 3 := by decide
  exact h ⟨x, hx⟩

set_option maxRecDepth 4000 in
/-- The 6-bit rounding upscale keeps its top six bits equal to the input:
masking with 0xFC is the input shifted up by two. -/
lemma up6_and (x : Nat) (hx : x < 64) : ((x * 255 + 31) / 63) &&& 0xFC = x <<< 2 := by
  have h : ∀ y : Fin 64, (((y : Nat) * 255 + 31) / 63) &&& 0xFC = (y : Nat) <<< 2 := by decide
  exact h ⟨x, hx⟩

set_option maxRecDepth 4000 in
/-- The 5-bit rounding upscale truncates back to the input. -/
lemma up5_shift (x : Nat) (hx : x < 32) : ((x * 255 + 15) / 31) >>> 3 = x := by
  have h : ∀ y : Fin 32, (((y : Nat) * 255 + 15) / 31) >>> 3 = (y : Nat) := by decide
  exact h ⟨x, hx⟩

/-- A masked-and-shifted field is bounded by the shifted mask. -/
lemma field_lt (v m k : Nat) : (v &&& m) >>> k ≤ m >>> k := by
  rw [Nat.shiftRight_eq_div_pow, Nat.shiftRight_eq_div_pow]
  exact Nat.div_le_div_right (Nat.and_le_right)

/-- Reassembling the three masked fields of a 16-bit value by shifts and
bitwise or gives the value back. -/
lemma or_fields (v : Nat) (hv : v < 65536) :
    ((((v &&& 0xF800) >>> 11) <<< 3) <<< 8)
      ||| ((((v &&& 0x07E0) >>> 5) <<< 2) <<< 3)
      ||| (v &&& 0x001F) = v := by
  apply Nat.eq_of_testBit_eq
  intro i
  rw [show (0xF800 : Nat) = (2 ^ 5 - 1) <<< 11 by decide,
    show (0x07E0 : Nat) = (2 ^ 6 - 1) <<< 5 by decide,
    show (0x001F : Nat) = 2 ^ 5 - 1 by decide]
  simp only [Nat.testBit_lor, Nat.testBit_shiftLeft, Nat.testBit_shiftRight,
    Nat.testBit_and, Nat.testBit_two_pow_sub_one]
  rw [show i - 8 - 3 = i - 11 by omega, show i - 3 - 2 = i - 5 by omega]
  by_cases h5 : i < 5
  · rw [decide_eq_false (show ¬ 8 ≤ i by omega),
      decide_eq_true (show i < 5 by omega)]
    by_cases h3 : i < 3
    · rw [decide_eq_false (show ¬ 3 ≤ i by omega)]
      simp
    · rw [decide_eq_true (show 3 ≤ i by omega),
        decide_eq_false (show ¬ 2 ≤ i - 3 by omega)]
      simp
  · by_cases h11 : i < 11
    · rw [show 5 + (i - 5) = i by omega,
        decide_eq_true (show 3 ≤ i by omega),
        decide_eq_true (show 2 ≤ i - 3 by omega),
        decide_eq_true (show 5 ≤ i by omega),
        decide_eq_true (show i - 5 < 6 by omega),
        decide_eq_false (show ¬ i < 5 by omega)]
      by_cases h8 : i < 8
      · rw [decide_eq_false (show ¬ 8 ≤ i by omega)]
        simp
      · rw [decide_eq_true (show 8 ≤ i by omega),
          decide_eq_false (show ¬ 3 ≤ i - 8 by omega)]
        simp
    · by_cases h16 : i < 16
      · rw [show 11 + (i - 11) = i by omega,
          show 5 + (i - 5) = i by omega,
          decide_eq_true (show 8 ≤ i by omega),
          decide_eq_true (show 3 ≤ i - 8 by omega),
          decide_eq_true (show 11 ≤ i by omega),
          decide_eq_true (show i - 11 < 5 by omega),
          decide_eq_true (show 3 ≤ i by omega),
          decide_eq_true (show 2 ≤ i - 3 by omega),
          decide_eq_false (show ¬ i - 5 < 6 by omega),
          decide_eq_false (show ¬ i < 5 by omega)]
        simp
      · have hp : (65536 : Nat) ≤ 2 ^ i := by
          have h := Nat.pow_le_pow_right (show 1 ≤ 2 by omega) (show 16 ≤ i by omega)
          norm_num at h
          exact h
        have hv' : v.testBit i = false :=
          Nat.testBit_lt_two_pow (lt_of_lt_of_le hv hp)
        rw [show 11 + (i - 11) = i by omega, show 5 + (i - 5) = i by omega, hv']
        simp

/-- The fuel does not matter once it covers the buffer length. -/
lemma chunkBytesF_congr (f1 : Nat) : ∀ (f2 : Nat) (data : List Nat),
    data.length ≤ f1 → data.length ≤ f2 →
    chunkBytesF f1 data = chunkBytesF f2 data := by
  induction f1 with
  | zero =>
    intro f2 data h1 _
    have hdata : data = [] := List.eq_nil_of_length_eq_zero (by omega)
    subst hdata
    simp [chunkBytesF]
  | succ n ih =>
    intro f2 data h1 h2
    match data, f2 with
    | [], f2 => simp [chunkBytesF]
    | b :: bs, 0 => simp at h2
    | b :: bs, m + 1 =>
      have hspi : 0 < SPI_CHUNK_SIZE_BYTES := by decide
      have hd : ((b :: bs).drop SPI_CHUNK_SIZE_BYTES).length ≤ n := by
        simp only [List.length_drop, List.length_cons] at h1 ⊢
        omega
      have hd2 : ((b :: bs).drop SPI_CHUNK_SIZE_BYTES).length ≤ m := by
        simp only [List.length_drop, List.length_cons] at h2 ⊢
        omega
      simp only [chunkBytesF]
      rw [ih m _ hd hd2]

lemma chunkBytes_nil : chunkBytes [] = [] := rfl

lemma chunkBytes_cons (data : List Nat) (h : data ≠ []) :
    chunkBytes data
      = data.take SPI_CHUNK_SIZE_BYTES :: chunkBytes (data.drop SPI_CHUNK_SIZE_BYTES) := by
  match data, h with
  | b :: bs, _ =>
    have hspi : 0 < SPI_CHUNK_SIZE_BYTES := by decide
    have hd : ((b :: bs).drop SPI_CHUNK_SIZE_BYTES).length ≤ bs.length := by
      simp only [List.length_drop, List.length_cons]
      omega
    show chunkBytesF (b :: bs).length (b :: bs) = _
    rw [List.length_cons]
    simp only [chunkBytesF]
    rw [chunkBytesF_congr bs.length ((b :: bs).drop SPI_CHUNK_SIZE_BYTES).length
      ((b :: bs).drop SPI_CHUNK_SIZE_BYTES) hd le_rfl]
    rfl

/-- Concatenating the chunks gives back the original buffer. -/
lemma chunkBytes_flatten (data : List Nat) : (chunkBytes data).flatten = data := by
  generalize hn : data.length = n
  induction n using Nat.strong_induction_on generalizing data with
  | _ n ih =>
    by_cases h : data = []
    · subst h; simp [chunkBytes_nil]
    · rw [chunkBytes_cons data h]
      have hlen : 0 < data.length := List.length_pos.mpr h
      have hdrop : (data.drop SPI_CHUNK_SIZE_BYTES).length < n := by
        simp only [List.length_drop]
        have : 0 < SPI_CHUNK_SIZE_BYTES := by decide
        omega
      simp only [List.flatten_cons]
      rw [ih _ hdrop _ rfl, List.take_append_drop]

/-- Every chunk is at most `SPI_CHUNK_SIZE_BYTES` long. -/
lemma chunkBytes_le (data : List Nat) :
    ∀ c ∈ chunkBytes data, c.length ≤ SPI_CHUNK_SIZE_BYTES := by
  generalize hn : data.length = n
  induction n using Nat.strong_induction_on generalizing data with
  | _ n ih =>
    by_cases h : data = []
    · subst h; simp [chunkBytes_nil]
    · rw [chunkBytes_cons data h]
      intro c hc
      rcases List.mem_cons.mp hc with hc | hc
      · subst hc; rw [List.length_take]; exact Nat.min_le_left _ _
      · have hlen : 0 < data.length := List.length_pos.mpr h
        have hdrop : (data.drop SPI_CHUNK_SIZE_BYTES).length < n := by
          simp only [List.length_drop]
          have : 0 < SPI_CHUNK_SIZE_BYTES := by decide
          omega
        exact ih _ hdrop _ rfl c hc

/-- Every chunk except possibly the last is exactly `SPI_CHUNK_SIZE_BYTES`
long. -/
lemma chunkBytes_full (data : List Nat) :
    ∀ c ∈ (chunkBytes data).dropLast, c.length = SPI_CHUNK_SIZE_BYTES := by
  generalize hn : data.length = n
  induction n using Nat.strong_induction_on generalizing data with
  | _ n ih =>
    by_cases h : data = []
    · subst h; simp [chunkBytes_nil]
    · rw [chunkBytes_cons data h]
      by_cases htl : data.drop SPI_CHUNK_SIZE_BYTES = []
      · simp [htl, chunkBytes_nil]
      · have hne : chunkBytes (data.drop SPI_CHUNK_SIZE_BYTES) ≠ [] := by
          rw [chunkBytes_cons _ htl]; simp
        intro c hc
        rw [List.dropLast_cons_of_ne_nil hne] at hc
        rcases List.mem_cons.mp hc with hc | hc
        · subst hc
          have : SPI_CHUNK_SIZE_BYTES < data.length := by
            by_contra hle
            exact htl (List.drop_eq_nil_iff.mpr (by omega))
          simp [List.length_take]
          omega
        · have hlen : 0 < data.length := List.length_pos.mpr h
          have hdrop : (data.drop SPI_CHUNK_SIZE_BYTES).length < n := by
            simp only [List.length_drop]
            have : 0 < SPI_CHUNK_SIZE_BYTES := by decide
            omega
          exact ih _ hdrop _ rfl c hc

/-- A buffer short enough for one chunk is sent whole. -/
lemma chunkBytes_small (data : List Nat) (h : data ≠ [])
    (hlen : data.length ≤ SPI_CHUNK_SIZE_BYTES) : chunkBytes data = [data] := by
  rw [chunkBytes_cons data h, List.take_of_length_le hlen,
    List.drop_eq_nil_of_le hlen, chunkBytes_nil]

/-- Length of a constant-width flatMap. -/
lemma length_flatMap_const {α β : Type} (l : List α) (f : α → List β) (n : Nat)
    (h : ∀ a ∈ l, (f a).length = n) : (l.flatMap f).length = l.length * n := by
  induction l with
  | nil => simp
  | cons a t ih =>
    rw [List.flatMap_cons, List.length_append, h a (List.mem_cons_self a t),
      ih fun b hb => h b (List.mem_cons_of_mem a hb), List.length_cons]
    ring

/-- The converted buffer holds two bytes per pixel, row-major. -/
lemma pil_image_to_rgb565_bytearray_length (w h : Nat) (img : Nat → Nat → Rgb) :
    (pil_image_to_rgb565_bytearray w h img).length = 2 * w * h := by
  unfold pil_image_to_rgb565_bytearray
  rw [length_flatMap_const _ _ (w * 2)]
  · simp [List.length_range]; ring
  · intro a _
    rw [length_flatMap_const _ _ 2]
    · simp [List.length_range]
    · intro b _
      rfl

/-- The clamp of `set_window` is the identity on an in-bounds coordinate. -/
lemma clampCoord_of_in_bounds (W : Nat) (v : Int) (h0 : 0 ≤ v)
    (h1 : v ≤ (W : Int) - 1) : (clampCoord W v : Int) = v := by
  unfold clampCoord
  omega

/-- The clamp of `set_window` always lands inside [0, W-1]. -/
lemma clampCoord_lt (W : Nat) (v : Int) (hW : 0 < W) : clampCoord W v < W := by
  unfold clampCoord
  omega

/-- `set_window`, rewritten with the swap expressed through min and max. -/
lemma set_window_eq (W H : Nat) (x0 y0 x1 y1 : Int) :
    set_window W H x0 y0 x1 y1
      = write_cmd_bytes_data CMD_CASET
          (benc16 (min (clampCoord W x0) (clampCoord W x1))
            ++ benc16 (max (clampCoord W x0) (clampCoord W x1)))
        ++ write_cmd_bytes_data CMD_RASET
          (benc16 (min (clampCoord H y0) (clampCoord H y1))
            ++ benc16 (max (clampCoord H y0) (clampCoord H y1))) := by
  unfold set_window
  have hmin : ∀ a b : Nat, (if a > b then b else a) = min a b := by
    intro a b; split <;> omega
  have hmax : ∀ a b : Nat, (if a > b then a else b) = max a b := by
    intro a b; split <;> omega
  simp only [hmin, hmax]

/-- `set_window` on an already ordered in-bounds window emits exactly that
window. -/
lemma set_window_of_in_bounds (W H : Nat) (a b c d : Int)
    (ha : 0 ≤ a) (hab : a ≤ b) (hb : b ≤ (W : Int) - 1)
    (hc : 0 ≤ c) (hcd : c ≤ d) (hd : d ≤ (H : Int) - 1) :
    set_window W H a c b d
      = write_cmd_bytes_data CMD_CASET (benc16 a.toNat ++ benc16 b.toNat)
        ++ write_cmd_bytes_data CMD_RASET (benc16 c.toNat ++ benc16 d.toNat) := by
  rw [set_window_eq]
  have e1 : clampCoord W a = a.toNat := by unfold clampCoord; omega
  have e2 : clampCoord W b = b.toNat := by unfold clampCoord; omega
  have e3 : clampCoord H c = c.toNat := by unfold clampCoord; omega
  have e4 : clampCoord H d = d.toNat := by unfold clampCoord; omega
  rw [e1, e2, e3, e4]
  have m1 : min a.toNat b.toNat = a.toNat := by omega
  have m2 : max a.toNat b.toNat = b.toNat := by omega
  have m3 : min c.toNat d.toNat = c.toNat := by omega
  have m4 : max c.toNat d.toNat = d.toNat := by omega
  rw [m1, m2, m3, m4]

/-- `draw_image_rgb565` on a fully in-bounds placement: the window is the
exact rectangle and the whole buffer is streamed unclipped. -/
lemma draw_image_rgb565_in_bounds (W H : Nat) (x y : Int) (w h : Nat)
    (buf : List Nat) (fb : Fb) (hx0 : 0 ≤ x) (hy0 : 0 ≤ y)
    (hw : 0 < w) (hh : 0 < h)
    (hxW : x + w ≤ (W : Int)) (hyH : y + h ≤ (H : Int)) :
    draw_image_rgb565 W H x y w h buf fb
      = (fb, write_cmd_bytes_data CMD_CASET
            (benc16 x.toNat ++ benc16 (x.toNat + w - 1))
          ++ (write_cmd_bytes_data CMD_RASET
            (benc16 y.toNat ++ benc16 (y.toNat + h - 1))
          ++ (write_ram_prepare ++ write_data buf))) := by
  have hxneg : ¬x < 0 := by omega
  have hyneg : ¬y < 0 := by omega
  have hg1 : ¬((W : Int) ≤ x ∨ (H : Int) ≤ y ∨ x + (w : Int) ≤ 0 ∨ y + (h : Int) ≤ 0) := by
    omega
  simp only [draw_image_rgb565, if_neg hxneg, if_neg hyneg, if_neg hg1,
    Nat.cast_zero, sub_zero, Int.toNat_of_nonneg hx0, Int.toNat_of_nonneg hy0]
  have hminW : min ((w : Int)) ((W : Int) - x) = (w : Int) := by omega
  have hminH : min ((h : Int)) ((H : Int) - y) = (h : Int) := by omega
  simp only [hminW, hminH, Int.toNat_natCast]
  have hg2 : ¬((w : Int) ≤ 0 ∨ (h : Int) ≤ 0) := by omega
  rw [if_neg hg2]
  have hg3 : ¬(w ≠ w ∨ h ≠ h ∨ 0 < 0 ∨ 0 < 0) := by simp
  rw [if_neg hg3]
  rw [set_window_of_in_bounds W H x (x + (w : Int) - 1) y (y + (h : Int) - 1)
    hx0 (by omega) (by omega) hy0 (by omega) (by omega)]
  have e1 : (x + (w : Int) - 1).toNat = x.toNat + w - 1 := by omega
  have e2 : (y + (h : Int) - 1).toNat = y.toNat + h - 1 := by omega
  rw [e1, e2]
  simp [List.append_assoc]

/-- Arithmetic facts about the clamps of `_update_framebuffer_region` when
the clamped region is nondegenerate. -/
lemma clamp_facts (W : Nat) (x w : Int) (hw : clampW W x w ≠ 0) :
    0 ≤ clampX W x ∧ 0 < clampW W x w ∧ clampX W x + clampW W x w ≤ (W : Int) := by
  unfold clampW clampX at *
  omega

/-- The trace of a nondegenerate engine-initiated sync, fully expanded. -/
lemma update_framebuffer_region_spec (W H : Nat) (fb : Fb) (x y w h : Int)
    (hw : clampW W x w ≠ 0) (hh : clampW H y h ≠ 0) :
    update_framebuffer_region W H fb x y w h
      = (fb, write_cmd_bytes_data CMD_CASET
            (benc16 (clampX W x).toNat
              ++ benc16 ((clampX W x).toNat + (clampW W x w).toNat - 1))
          ++ (write_cmd_bytes_data CMD_RASET
            (benc16 (clampX H y).toNat
              ++ benc16 ((clampX H y).toNat + (clampW H y h).toNat - 1))
          ++ (write_ram_prepare
          ++ write_data (pil_image_to_rgb565_bytearray
              (clampW W x w).toNat (clampW H y h).toNat
              (fun i j => fb ((clampX W x).toNat + i) ((clampX H y).toNat + j)))))) := by
  obtain ⟨hx0, hwpos, hxW⟩ := clamp_facts W x w hw
  obtain ⟨hy0, hhpos, hyH⟩ := clamp_facts H y h hh
  unfold update_framebuffer_region
  rw [if_neg (by omega : ¬(clampW W x w = 0 ∨ clampW H y h = 0))]
  rw [draw_image_rgb565_in_bounds W H (clampX W x) (clampX H y)
    (clampW W x w).toNat (clampW H y h).toNat _ fb hx0 hy0
    (by omega) (by omega) (by omega) (by omega)]

set_option maxRecDepth 4000 in
/-- With source alpha 0, one composited channel returns the destination. -/
lemma alpha_composite_channel_zero (s d : Nat) (hd : d ≤ 255) :
    alpha_composite_channel s d 0 = d := by
  have h : ∀ e : Fin 256,
      shiftForDiv255 ((e : Nat) * ((255 - 0) * 128) + 16384) / 128 = e := by
    decide
  unfold alpha_composite_channel
  rw [Nat.zero_mul, Nat.mul_zero, Nat.zero_add]
  exact h ⟨d, by omega⟩

set_option maxRecDepth 4000 in
/-- With source alpha 255, one composited channel returns the source. -/
lemma alpha_composite_channel_full (s d : Nat) (hs : s ≤ 255) :
    alpha_composite_channel s d 255 = s := by
  have h : ∀ e : Fin 256,
      shiftForDiv255 ((e : Nat) * (255 * 128) + 16384) / 128 = e := by
    decide
  unfold alpha_composite_channel
  rw [Nat.sub_self, Nat.zero_mul, Nat.mul_zero, Nat.add_zero]
  exact h ⟨s, by omega⟩

/-! ## Claim theorems -/

/-- C3: for every 16-bit RGB565 value v, upscaling to RGB888 by rounding and
truncating back to RGB565 returns v. -/
theorem claim_C3_roundtrip (v : Nat) (hv : v < 65536) :
    rgb888_tuple_to_rgb565_int (rgb565_to_rgb888_tuple v) = v := by
  have ha : (v &&& 0xF800) >>> 11 < 32 := by
    have := field_lt v 0xF800 11
    omega
  have hb : (v &&& 0x07E0) >>> 5 < 64 := by
    have := field_lt v 0x07E0 5
    omega
  have hc : v &&& 0x001F < 32 := by
    have h : v &&& 0x001F ≤ 0x001F := Nat.and_le_right
    omega
  simp only [rgb565_to_rgb888_tuple, rgb888_tuple_to_rgb565_int]
  rw [up5_and _ ha, up6_and _ hb, up5_shift _ hc]
  exact or_fields v hv

/-- Witness for C3 at a concrete input. -/
theorem claim_C3_roundtrip_witness :
    0xABCD < 65536 ∧
      rgb888_tuple_to_rgb565_int (rgb565_to_rgb888_tuple 0xABCD) = 0xABCD :=
  ⟨by decide, claim_C3_roundtrip 0xABCD (by decide)⟩

/-- C8: the payload is split into chunks of at most 4096 bytes, every chunk
except possibly the last is exactly 4096 bytes, and the chunks concatenate
back to the original buffer, in order. -/
theorem claim_C8_chunking (data : List Nat) :
    (chunkBytes data).flatten = data ∧
    (∀ c ∈ chunkBytes data, c.length ≤ 4096) ∧
    (∀ c ∈ (chunkBytes data).dropLast, c.length = 4096) ∧
    write_data data = (chunkBytes data).map .data :=
  ⟨chunkBytes_flatten data, chunkBytes_le data, chunkBytes_full data, rfl⟩

/-- Witness for C8: a 4097-byte buffer splits as a full 4096-byte chunk
followed by a 1-byte chunk. -/
theorem claim_C8_chunking_witness :
    (chunkBytes (List.replicate 4097 7)).flatten = List.replicate 4097 7 ∧
      (List.replicate 4096 7).length ≤ 4096 ∧
      chunkBytes (List.replicate 4097 7)
        = [List.replicate 4096 7, [7]] := by
  have hSPI : SPI_CHUNK_SIZE_BYTES = 4096 := rfl
  have h1 : (List.replicate 4097 (7 : Nat)) ≠ [] := by
    intro h
    have h2 := congrArg List.length h
    simp only [List.length_replicate, List.length_nil] at h2
    omega
  refine ⟨(claim_C8_chunking (List.replicate 4097 7)).1,
    le_of_eq (List.length_replicate _ _), ?_⟩
  rw [chunkBytes_cons _ h1, List.take_replicate, List.drop_replicate, hSPI]
  norm_num
  rw [chunkBytes_small _ (by simp) (by decide)]

/-- C4: `set_window` clamps each coordinate into the panel, swaps an
inverted start/end pair, and emits CASET and RASET with 16-bit
big-endian start and end per axis; in particular (300,10,5,400) on a
240-by-240 panel is emitted as the window (5,10)-(239,239). -/
theorem claim_C4_set_window (W H : Nat) (x0 y0 x1 y1 : Int) (hW : 0 < W) :
    set_window W H x0 y0 x1 y1
      = write_cmd_bytes_data CMD_CASET
          (benc16 (min (clampCoord W x0) (clampCoord W x1))
            ++ benc16 (max (clampCoord W x0) (clampCoord W x1)))
        ++ write_cmd_bytes_data CMD_RASET
          (benc16 (min (clampCoord H y0) (clampCoord H y1))
            ++ benc16 (max (clampCoord H y0) (clampCoord H y1))) ∧
    clampCoord W x0 < W ∧
    set_window 240 240 300 10 5 400
      = [.cmd CMD_CASET, .data [0, 5, 0, 239], .cmd CMD_RASET, .data [0, 10, 0, 239]] :=
  ⟨set_window_eq W H x0 y0 x1 y1, clampCoord_lt W x0 hW, by decide⟩

/-- Witness for C4 at the concrete input of the claim. -/
theorem claim_C4_set_window_witness :
    (0 < 240 ∧
      set_window 240 240 300 10 5 400
        = write_cmd_bytes_data CMD_CASET
            (benc16 (min (clampCoord 240 300) (clampCoord 240 5))
              ++ benc16 (max (clampCoord 240 300) (clampCoord 240 5)))
          ++ write_cmd_bytes_data CMD_RASET
            (benc16 (min (clampCoord 240 10) (clampCoord 240 400))
              ++ benc16 (max (clampCoord 240 10) (clampCoord 240 400)))) ∧
    clampCoord 240 300 < 240 ∧
    set_window 240 240 300 10 5 400
      = [.cmd CMD_CASET, .data [0, 5, 0, 239], .cmd CMD_RASET, .data [0, 10, 0, 239]] :=
  have h := claim_C4_set_window 240 240 300 10 5 400 (by decide)
  ⟨⟨by decide, h.1⟩, h.2.1, h.2.2⟩

/-- C9: blitRaw (draw_image_rgb565) never mutates the software framebuffer,
for any placement, on-screen, partially off-screen or fully off-screen. -/
theorem claim_C9_blitRaw_framebuffer (W H : Nat) (x y : Int) (w h : Nat)
    (buf : List Nat) (fb : Fb) :
    (draw_image_rgb565 W H x y w h buf fb).1 = fb := by
  simp only [draw_image_rgb565]
  split_ifs <;> rfl

/-- C10: every nondegenerate sync initiated through
`_update_framebuffer_region` programs an addressing window that spans
exactly the clamped in-bounds region, with start not after end on both
axes, and streams exactly 2 bytes per pixel of that region after the
memory-write command. -/
theorem claim_C10_sync_invariant (W H : Nat) (fb : Fb) (x y w h : Int)
    (hw : clampW W x w ≠ 0) (hh : clampW H y h ≠ 0) :
    (update_framebuffer_region W H fb x y w h).2
      = write_cmd_bytes_data CMD_CASET
          (benc16 (clampX W x).toNat
            ++ benc16 ((clampX W x).toNat + (clampW W x w).toNat - 1))
        ++ (write_cmd_bytes_data CMD_RASET
          (benc16 (clampX H y).toNat
            ++ benc16 ((clampX H y).toNat + (clampW H y h).toNat - 1))
        ++ (write_ram_prepare
        ++ write_data (pil_image_to_rgb565_bytearray
            (clampW W x w).toNat (clampW H y h).toNat
            (fun i j => fb ((clampX W x).toNat + i) ((clampX H y).toNat + j))))) ∧
    0 < (clampW W x w).toNat ∧
    0 < (clampW H y h).toNat ∧
    (clampX W x).toNat + (clampW W x w).toNat ≤ W ∧
    (clampX H y).toNat + (clampW H y h).toNat ≤ H ∧
    (pil_image_to_rgb565_bytearray (clampW W x w).toNat (clampW H y h).toNat
        (fun i j => fb ((clampX W x).toNat + i) ((clampX H y).toNat + j))).length
      = 2 * (clampW W x w).toNat * (clampW H y h).toNat := by
  obtain ⟨hx0, hwpos, hxW⟩ := clamp_facts W x w hw
  obtain ⟨hy0, hhpos, hyH⟩ := clamp_facts H y h hh
  refine ⟨?_, by omega, by omega, by omega, by omega,
    pil_image_to_rgb565_bytearray_length _ _ _⟩
  rw [update_framebuffer_region_spec W H fb x y w h hw hh]

/-- Witness for C10 on a concrete 4-by-4 panel. -/
theorem claim_C10_sync_invariant_witness :
    (clampW 4 (0 : Int) 2 ≠ 0 ∧ clampW 4 (0 : Int) 2 ≠ 0) ∧
      (pil_image_to_rgb565_bytearray (clampW 4 (0 : Int) 2).toNat
          (clampW 4 (0 : Int) 2).toNat
          (fun i j => fbCoords ((clampX 4 (0 : Int)).toNat + i)
            ((clampX 4 (0 : Int)).toNat + j))).length
        = 2 * (clampW 4 (0 : Int) 2).toNat * (clampW 4 (0 : Int) 2).toNat :=
  ⟨⟨by decide, by decide⟩,
    (claim_C10_sync_invariant 4 4 fbCoords 0 0 2 2 (by decide) (by decide)).2.2.2.2.2⟩

/-- C5 as stated is false: a fill-only rectangle fully off-screen to the
right (x = 300 on a 240-wide panel) leaves the framebuffer unchanged but
still issues a bus transfer, because `_update_framebuffer_region` clamps
the origin onto the panel edge (x = 239, width 1) instead of rejecting the
region. -/
theorem claim_C5_counterexample :
    (rectangle 240 240 fbZero 300 0 10 10 none (some 0) 1).2 ≠ [] := by decide

/-- C5 amended: a fill-only rectangle placed fully off-screen to the right
mutates no framebuffer pixel, but the bus is not silent: the dirty-region
helper clamps the region onto the panel edge and transmits that clamped
strip. -/
theorem claim_C5_rectangle_offscreen (W H : Nat) (fb : Fb) (x y w h : Int)
    (hx : (W : Int) ≤ x) (hw : 0 < w) (hh : 0 < h) (hW : 0 < W)
    (hy0 : 0 ≤ y) (hyH : y < (H : Int)) (fill : Option Nat) :
    (∀ i j : Nat, (rectangle W H fb x y w h none fill 1).1 i j = fb i j) ∧
    (rectangle W H fb x y w h none fill 1).2 ≠ [] := by
  have hno : ¬(w ≤ 0 ∨ h ≤ 0) := by omega
  have hcw : clampW W x w ≠ 0 := by unfold clampW clampX; omega
  have hch : clampW H y h ≠ 0 := by unfold clampW clampX; omega
  have h1 : (Option.map rgb565_to_rgb888_tuple (none : Option Nat)).isSome = false := rfl
  constructor
  · intro i j
    simp only [rectangle, if_neg hno, h1, Bool.false_eq_true, false_and, if_false]
    simp only [fb_draw_rectangle]
    rw [if_neg (by omega :
      ¬((i : Nat) < W ∧ (j : Nat) < H ∧ x ≤ (i : Int) ∧ (i : Int) ≤ x + w - 1
        ∧ y ≤ (j : Int) ∧ (j : Int) ≤ y + h - 1))]
  · simp only [rectangle, if_neg hno, h1, Bool.false_eq_true, false_and, if_false,
      sub_zero, mul_zero, add_zero]
    rw [update_framebuffer_region_spec W H _ x y w h hcw hch]
    simp [write_cmd_bytes_data]

/-- Witness for the amended C5 at the concrete off-screen input. -/
theorem claim_C5_rectangle_offscreen_witness :
    ((240 : Int) ≤ 300 ∧ (0 : Int) < 10 ∧ 0 < 240 ∧ (0 : Int) ≤ 0
        ∧ (0 : Int) < 240) ∧
      (rectangle 240 240 fbZero 300 0 10 10 none (some 0) 1).1 3 5 = fbZero 3 5 ∧
      (rectangle 240 240 fbZero 300 0 10 10 none (some 0) 1).2 ≠ [] :=
  ⟨⟨by decide, by decide, by decide, by decide, by decide⟩,
    (claim_C5_rectangle_offscreen 240 240 fbZero 300 0 10 10 (by decide)
      (by decide) (by decide) (by decide) (by decide) (by decide) (some 0)).1 3 5,
    (claim_C5_rectangle_offscreen 240 240 fbZero 300 0 10 10 (by decide)
      (by decide) (by decide) (by decide) (by decide) (by decide) (some 0)).2⟩

/-- C6 as stated is false: with the DC pin unconfigured, `display_on` does
not degrade to a silent no-op; the unguarded `self.dc.value(0)` inside
`_write_cmd_no_args` raises an AttributeError. -/
theorem claim_C6_counterexample :
    display_on_hw
        { dc := false, rst := true, bl := true, cs := false,
          spiBus := true, manualCs := false }
      = .error "AttributeError: NoneType object has no attribute value" := rfl

/-- C6 amended: `reset`, the backlight operations and manual chip-select
guard their missing collaborators and degrade to silent no-ops (reset with
a logged warning), but the command path (`_write_cmd_no_args`, hence
displayOn/displayOff and the addressing writes) dereferences the DC pin and
SPI bus unguarded: it raises when the DC pin is absent and succeeds when DC
and SPI are present. -/
theorem claim_C6_pin_guards (p : Periph) (c : Nat) :
    (p.rst = false → reset_hw p = [.warn "Reset pin not configured."]) ∧
    (p.bl = false → backlight_on_hw p = [] ∧ backlight_off_hw p = []) ∧
    (p.dc = false →
      write_cmd_no_args_hw p c
          = .error "AttributeError: NoneType object has no attribute value" ∧
      display_on_hw p
          = .error "AttributeError: NoneType object has no attribute value" ∧
      display_off_hw p
          = .error "AttributeError: NoneType object has no attribute value") ∧
    (p.dc = true → p.spiBus = true →
      write_cmd_no_args_hw p c
          = .ok (cs_low_hw p ++ [.dcVal 0] ++ [.spiWrite [c]] ++ cs_high_hw p) ∧
      display_on_hw p
          = .ok (cs_low_hw p ++ [.dcVal 0] ++ [.spiWrite [CMD_DISPON]]
              ++ cs_high_hw p)) := by
  refine ⟨?_, ?_, ?_, ?_⟩
  · intro h; simp [reset_hw, h]
  · intro h; simp [backlight_on_hw, backlight_off_hw, h]
  · intro h
    refine ⟨?_, ?_, ?_⟩ <;>
      simp [display_on_hw, display_off_hw, write_cmd_no_args_hw, pin_value, h,
        Bind.bind, Except.bind, Functor.map, Except.map]
  · intro hdc hspi
    constructor <;>
      simp [display_on_hw, write_cmd_no_args_hw, pin_value, spi_write_hw,
        hdc, hspi, Bind.bind, Except.bind, Functor.map, Except.map, Pure.pure,
        Except.pure]

/-- Witness for the amended C6 on two concrete configurations. -/
theorem claim_C6_pin_guards_witness :
    (reset_hw
        { dc := false, rst := false, bl := false, cs := false,
          spiBus := true, manualCs := false }
      = [.warn "Reset pin not configured."]) ∧
    (backlight_on_hw
        { dc := false, rst := false, bl := false, cs := false,
          spiBus := true, manualCs := false } = []) ∧
    (display_on_hw
        { dc := false, rst := false, bl := false, cs := false,
          spiBus := true, manualCs := false }
      = .error "AttributeError: NoneType object has no attribute value") ∧
    (display_on_hw
        { dc := true, rst := true, bl := true, cs := false,
          spiBus := true, manualCs := false }
      = .ok [.dcVal 0, .spiWrite [CMD_DISPON]]) :=
  ⟨(claim_C6_pin_guards
      { dc := false, rst := false, bl := false, cs := false,
        spiBus := true, manualCs := false } 0).1 rfl,
   ((claim_C6_pin_guards
      { dc := false, rst := false, bl := false, cs := false,
        spiBus := true, manualCs := false } 0).2.1 rfl).1,
   ((claim_C6_pin_guards
      { dc := false, rst := false, bl := false, cs := false,
        spiBus := true, manualCs := false } 0).2.2.1 rfl).2.1,
   ((claim_C6_pin_guards
      { dc := true, rst := true, bl := true, cs := false,
        spiBus := true, manualCs := false } 0).2.2.2 rfl rfl).2⟩

/-- C7: a circle with negative radius is a complete no-op; a circle with
radius zero is exactly the single-pixel primitive at the center, with the
fill color when one is given and otherwise the outline color; the pixel
primitive writes the converted color at the center when the center is
on-panel and touches no other framebuffer pixel. -/
theorem claim_C7_circle_degenerate (W H : Nat) (fb : Fb) (xc yc : Int)
    (outline fill : Option Nat) (ow : Nat) :
    (∀ r : Int, r < 0 → circle W H fb xc yc r outline fill ow = some (fb, [])) ∧
    (∀ c : Nat, fill = some c ∨ (fill = none ∧ outline = some c) →
      circle W H fb xc yc 0 outline fill ow = some (pixel W H fb xc yc c)) ∧
    (∀ c : Nat, 0 ≤ xc → xc < (W : Int) → 0 ≤ yc → yc < (H : Int) →
      (pixel W H fb xc yc c).1 xc.toNat yc.toNat = rgb565_to_rgb888_tuple c ∧
      ∀ i j : Nat, ¬((i : Int) = xc ∧ (j : Int) = yc) →
        (pixel W H fb xc yc c).1 i j = fb i j) := by
  refine ⟨?_, ?_, ?_⟩
  · intro r hr
    simp only [circle, if_pos hr]
  · intro c hc
    rcases hc with hc | ⟨hf, ho⟩
    · subst hc
      simp [circle]
    · subst hf; subst ho
      simp [circle]
  · intro c hx0 hxW hy0 hyH
    have hin : 0 ≤ xc ∧ xc < (W : Int) ∧ 0 ≤ yc ∧ yc < (H : Int) :=
      ⟨hx0, hxW, hy0, hyH⟩
    constructor
    · simp only [pixel, if_pos hin]
      rw [if_pos ⟨by omega, by omega⟩]
    · intro i j hij
      simp only [pixel, if_pos hin]
      rw [if_neg hij]

/-- Witness for C7 at concrete inputs. -/
theorem claim_C7_circle_degenerate_witness :
    ((-1 : Int) < 0
        ∧ circle 4 4 fbCoords 1 1 (-1) (some 3) (some 7) 1 = some (fbCoords, [])) ∧
      (circle 4 4 fbCoords 1 1 0 (some 3) (some 7) 1
        = some (pixel 4 4 fbCoords 1 1 7)) ∧
      ((pixel 4 4 fbCoords 1 1 7).1 1 1 = rgb565_to_rgb888_tuple 7 ∧
        (pixel 4 4 fbCoords 1 1 7).1 0 2 = fbCoords 0 2) :=
  ⟨⟨by decide,
    (claim_C7_circle_degenerate 4 4 fbCoords 1 1 (some 3) (some 7) 1).1 (-1)
      (by decide)⟩,
   (claim_C7_circle_degenerate 4 4 fbCoords 1 1 (some 3) (some 7) 1).2.1 7
     (Or.inl rfl),
   ⟨((claim_C7_circle_degenerate 4 4 fbCoords 1 1 (some 3) (some 7) 1).2.2 7
       (by decide) (by decide) (by decide) (by decide)).1,
    ((claim_C7_circle_degenerate 4 4 fbCoords 1 1 (some 3) (some 7) 1).2.2 7
       (by decide) (by decide) (by decide) (by decide)).2 0 2 (by decide)⟩⟩

/-- C1: every pixel affected by an RGBA composite is blended source-over
with the existing framebuffer content: a source pixel with alpha 0 leaves
the framebuffer pixel unchanged, and a source pixel with alpha 255 replaces
it exactly with the source RGB.  The pixel of the panel at (i, j) receives
the source pixel (u, v) when (i, j) = (x + u, y + v). -/
theorem claim_C1_composite_alpha (W H : Nat) (x y : Int) (imgW imgH : Nat)
    (img : Nat → Nat → Rgba) (fb : Fb) (u v i j : Nat)
    (hu : u < imgW) (hv : v < imgH)
    (hi : (i : Int) = x + u) (hj : (j : Int) = y + v)
    (hiW : i < W) (hjH : j < H)
    (hdst : (fb i j).1 ≤ 255 ∧ (fb i j).2.1 ≤ 255 ∧ (fb i j).2.2 ≤ 255)
    (hsrc : (img u v).r ≤ 255 ∧ (img u v).g ≤ 255 ∧ (img u v).b ≤ 255) :
    ((img u v).a = 0 →
      (draw_image_rgba_composited W H x y imgW imgH img fb).1 i j = fb i j) ∧
    ((img u v).a = 255 →
      (draw_image_rgba_composited W H x y imgW imgH img fb).1 i j
        = ((img u v).r, (img u v).g, (img u v).b)) := by
  have hifx : (if 0 ≤ x then (0 : Int) else -x) = max 0 (-x) := by
    split <;> omega
  have hify : (if 0 ≤ y then (0 : Int) else -y) = max 0 (-y) := by
    split <;> omega
  have key : (draw_image_rgba_composited W H x y imgW imgH img fb).1 i j
      = composite_pixel (fb i j) (img u v) := by
    simp only [draw_image_rgba_composited, composite_clip, hifx, hify]
    rw [if_neg (by omega :
      ¬(min ((imgW : Int) - max 0 (-x)) ((W : Int) - max 0 x) ≤ 0
        ∨ min ((imgH : Int) - max 0 (-y)) ((H : Int) - max 0 y) ≤ 0))]
    dsimp only
    rw [if_pos (by omega :
      max 0 x ≤ (i : Int)
        ∧ (i : Int) < max 0 x + min ((imgW : Int) - max 0 (-x)) ((W : Int) - max 0 x)
        ∧ max 0 y ≤ (j : Int)
        ∧ (j : Int) < max 0 y + min ((imgH : Int) - max 0 (-y)) ((H : Int) - max 0 y))]
    have e1 : ((i : Int) - max 0 x + max 0 (-x)).toNat = u := by omega
    have e2 : ((j : Int) - max 0 y + max 0 (-y)).toNat = v := by omega
    rw [e1, e2]
  rcases hfb : fb i j with ⟨d1, d2, d3⟩
  rcases himg : img u v with ⟨s1, s2, s3, sa⟩
  rw [hfb] at hdst key
  rw [himg] at hsrc key
  constructor
  · intro ha
    dsimp only at ha
    subst ha
    rw [key]
    unfold composite_pixel
    dsimp only
    rw [alpha_composite_channel_zero s1 d1 hdst.1,
      alpha_composite_channel_zero s2 d2 hdst.2.1,
      alpha_composite_channel_zero s3 d3 hdst.2.2]
  · intro ha
    dsimp only at ha
    subst ha
    rw [key]
    unfold composite_pixel
    dsimp only
    rw [alpha_composite_channel_full s1 d1 hsrc.1,
      alpha_composite_channel_full s2 d2 hsrc.2.1,
      alpha_composite_channel_full s3 d3 hsrc.2.2]

/-- Witness for C1: a 2-by-2 image at the origin of a 4-by-4 panel, checked
at panel pixel (1,1), with alpha 0 and alpha 255 source images. -/
theorem claim_C1_composite_alpha_witness :
    (1 < 2 ∧ ((1 : Nat) : Int) = 0 + (1 : Nat) ∧ 1 < 4) ∧
      ((draw_image_rgba_composited 4 4 0 0 2 2 (imgConst ⟨9, 8, 7, 0⟩) fbCoords).1 1 1
        = fbCoords 1 1) ∧
      ((draw_image_rgba_composited 4 4 0 0 2 2 (imgConst ⟨9, 8, 7, 255⟩) fbCoords).1 1 1
        = (9, 8, 7)) :=
  ⟨⟨by decide, by decide, by decide⟩,
   (claim_C1_composite_alpha 4 4 0 0 2 2 (imgConst ⟨9, 8, 7, 0⟩) fbCoords 1 1 1 1
      (by decide) (by decide) (by decide) (by decide) (by decide) (by decide)
      (by decide) (by decide)).1 rfl,
   (claim_C1_composite_alpha 4 4 0 0 2 2 (imgConst ⟨9, 8, 7, 255⟩) fbCoords 1 1 1 1
      (by decide) (by decide) (by decide) (by decide) (by decide) (by decide)
      (by decide) (by decide)).2 rfl⟩

/-- C2: the blit rectangle of a composite is exactly the intersection of
the placed image rectangle with the panel bounds; pixels outside it are
untouched and pixels inside receive the source-over composite of the
corresponding (symmetrically cropped) source pixel; the dirty-sync is
issued for exactly that rectangle, whose clamps are the identity; an empty
intersection is a complete no-op; and the spec example (a 50-wide image at
x = -20 on a 240-wide panel) clips to the 30-column slice at x = 0. -/
theorem claim_C2_composite_clipping (W H : Nat) (x y : Int) (imgW imgH : Nat)
    (img : Nat → Nat → Rgba) (fb : Fb) (dX dY bW bH : Int)
    (hc : composite_clip W H x y imgW imgH = (dX, dY, bW, bH)) :
    (dX = max 0 x ∧ dY = max 0 y
      ∧ dX + bW = min (x + imgW) (W : Int)
      ∧ dY + bH = min (y + imgH) (H : Int)) ∧
    (bW ≤ 0 ∨ bH ≤ 0 →
      draw_image_rgba_composited W H x y imgW imgH img fb = (fb, [])) ∧
    (0 < bW → 0 < bH →
      (∀ i j : Nat,
        ¬(dX ≤ (i : Int) ∧ (i : Int) < dX + bW
            ∧ dY ≤ (j : Int) ∧ (j : Int) < dY + bH) →
        (draw_image_rgba_composited W H x y imgW imgH img fb).1 i j = fb i j) ∧
      (∀ i j : Nat,
        dX ≤ (i : Int) → (i : Int) < dX + bW
          → dY ≤ (j : Int) → (j : Int) < dY + bH →
        (draw_image_rgba_composited W H x y imgW imgH img fb).1 i j
          = composite_pixel (fb i j)
              (img ((i : Int) - dX + (if 0 ≤ x then 0 else -x)).toNat
                ((j : Int) - dY + (if 0 ≤ y then 0 else -y)).toNat)) ∧
      (draw_image_rgba_composited W H x y imgW imgH img fb).2
        = (update_framebuffer_region W H
            (draw_image_rgba_composited W H x y imgW imgH img fb).1
            dX dY bW bH).2 ∧
      (clampX W dX = dX ∧ clampX H dY = dY
        ∧ clampW W dX bW = bW ∧ clampW H dY bH = bH)) ∧
    composite_clip 240 240 (-20) 0 50 50 = (0, 0, 30, 50) := by
  have hifx : (if 0 ≤ x then (0 : Int) else -x) = max 0 (-x) := by
    split <;> omega
  have hify : (if 0 ≤ y then (0 : Int) else -y) = max 0 (-y) := by
    split <;> omega
  have hc2 := hc
  simp only [composite_clip, hifx, hify, Prod.mk.injEq] at hc2
  obtain ⟨h1, h2, h3, h4⟩ := hc2
  refine ⟨⟨by omega, by omega, by omega, by omega⟩, ?_, ?_, by decide⟩
  · intro hempty
    simp only [draw_image_rgba_composited, hc]
    rw [if_pos hempty]
  · intro hbW hbH
    have hnot : ¬(bW ≤ 0 ∨ bH ≤ 0) := by omega
    refine ⟨?_, ?_, ?_, by simp only [clampX]; omega, by simp only [clampX]; omega,
      by simp only [clampW, clampX]; omega, by simp only [clampW, clampX]; omega⟩
    · intro i j hout
      simp only [draw_image_rgba_composited, hc]
      rw [if_neg hnot]
      dsimp only
      rw [if_neg hout]
    · intro i j hi1 hi2 hj1 hj2
      simp only [draw_image_rgba_composited, hc]
      rw [if_neg hnot]
      dsimp only
      rw [if_pos ⟨hi1, hi2, hj1, hj2⟩]
    · simp only [draw_image_rgba_composited, hc]
      rw [if_neg hnot]

/-- Witness for C2 on a 6-by-6 panel with a 4-by-3 image at x = -2:
the intersection is the 2-column slice at the origin. -/
theorem claim_C2_composite_clipping_witness :
    (composite_clip 6 6 (-2) 0 4 3 = (0, 0, 2, 3)) ∧
      ((0 : Int) = max 0 (-2) ∧ (0 : Int) + 2 = min ((-2 : Int) + (4 : Nat)) ((6 : Nat) : Int)) ∧
      ((draw_image_rgba_composited 6 6 (-2) 0 4 3 (imgConst ⟨1, 2, 3, 4⟩) fbCoords).1 4 4
        = fbCoords 4 4) ∧
      ((draw_image_rgba_composited 6 6 (-2) 0 4 3 (imgConst ⟨1, 2, 3, 4⟩) fbCoords).2
        = (update_framebuffer_region 6 6
            (draw_image_rgba_composited 6 6 (-2) 0 4 3 (imgConst ⟨1, 2, 3, 4⟩) fbCoords).1
            0 0 2 3).2) ∧
      composite_clip 240 240 (-20) 0 50 50 = (0, 0, 30, 50) :=
  ⟨by decide,
   ⟨((claim_C2_composite_clipping 6 6 (-2) 0 4 3 (imgConst ⟨1, 2, 3, 4⟩) fbCoords
       0 0 2 3 (by decide)).1).1,
    ((claim_C2_composite_clipping 6 6 (-2) 0 4 3 (imgConst ⟨1, 2, 3, 4⟩) fbCoords
       0 0 2 3 (by decide)).1).2.2.1⟩,
   ((claim_C2_composite_clipping 6 6 (-2) 0 4 3 (imgConst ⟨1, 2, 3, 4⟩) fbCoords
       0 0 2 3 (by decide)).2.2.1 (by decide) (by decide)).1 4 4 (by decide),
   ((claim_C2_composite_clipping 6 6 (-2) 0 4 3 (imgConst ⟨1, 2, 3, 4⟩) fbCoords
       0 0 2 3 (by decide)).2.2.1 (by decide) (by decide)).2.2.1,
   (claim_C2_composite_clipping 6 6 (-2) 0 4 3 (imgConst ⟨1, 2, 3, 4⟩) fbCoords
       0 0 2 3 (by decide)).2.2.2⟩

end GC9A01
